import Mathlib

/-!
Verification development for the bgl-demo model-loading core.

The embedded functions mirror the C++ sources of the repository:
`model.cpp` (the anonymous-namespace loaders `create_vbo`, `create_ibo`,
`importScene`, `load_meshes`, `calculate_bounding_box`, `get_color`,
`get_path`, `get_texture`, `load_material`, `load_materials`, `LoadModel`,
`LoadTexture`), `gfx.cpp` (the GL-handle variant of `create_ibo`), and
`mesh.cpp` (the `Mesh` constructor).

Modelling conventions:
  * GL `float` values are embedded as exact rationals (`ℚ`); every
    arithmetic operation the embedded code performs (min, max,
    subtraction, halving, `1 - v`) is exact on the inputs considered, so
    rational equality faithfully reflects the C++ computation.
  * C++ exceptions are embedded as `Except`; each distinct `throw` site of
    the source corresponds to one constructor of the `Err` enumeration.
    The one `assert` of `model.cpp`'s `create_ibo` is embedded as a failing
    check (`Err.badFaceAssert`): in a debug build it aborts the program.
  * Indeterminate memory (the uninitialized stack accumulator of
    `calculate_bounding_box`, the contents of a freshly allocated,
    never-written GPU buffer region) is made an explicit parameter of the
    embedded function: the C++ result depends on it, so the Lean function
    receives it as an input.
  * External-collaborator outcomes that the code branches on (does
    `map()` succeed, does a `create()` succeed, does an image decode)
    are supplied by small environment records of booleans.
-/

namespace Bgl

/-- Two-component float vector (`glm::vec2`), floats embedded as `ℚ`. -/
structure Vec2 where
  x : ℚ
  y : ℚ
deriving DecidableEq, Repr

/-- Three-component float vector (`glm::vec3`), floats embedded as `ℚ`. -/
structure Vec3 where
  x : ℚ
  y : ℚ
  z : ℚ
deriving DecidableEq, Repr

def Vec2.zero : Vec2 := ⟨0, 0⟩

def Vec3.zero : Vec3 := ⟨0, 0, 0⟩

/-- The interleaved vertex record (`struct Vertex` in `gfx.hpp`):
position, normal, texcoords at fixed offsets. -/
structure Vertex where
  position : Vec3
  normal : Vec3
  texcoords : Vec2
deriving DecidableEq, Repr

def Vertex.zero : Vertex := ⟨Vec3.zero, Vec3.zero, Vec2.zero⟩

/-- The slice of `aiMesh` the loaders consume.  `mTextureCoords0` is
`mTextureCoords[0]` (`none` embeds the null pointer), `mNumUVComponents0`
is `mNumUVComponents[0]`, and `mFaces` lists each face's `mIndices`. -/
structure AiMesh where
  mVertices : List Vec3
  mNormals : List Vec3
  mTextureCoords0 : Option (List Vec2)
  mNumUVComponents0 : Nat
  mFaces : List (List Nat)
  mMaterialIndex : Nat

/-- One constructor per distinct C++ failure site reached by the embedded
code paths. -/
inductive Err where
  /-- `importScene`: "the file ... does not exist" -/
  | fileNotFound
  /-- `importScene`: null property store or null scene, `aiGetErrorString()` -/
  | importFailed
  /-- `load_meshes`: "empty model" -/
  | emptyModel
  /-- `create_vbo`: "could not map VBO" -/
  | mapVBO
  /-- `create_vbo`: "only one texture channel supported" -/
  | uvChannels
  /-- `create_vbo`: "could not unmap VBO" -/
  | unmapVBO
  /-- `create_ibo` (`model.cpp`): "could not map IBO" -/
  | mapIBO
  /-- `create_ibo` (`model.cpp`): `assert(mesh.mFaces[i].mNumIndices == 3)` -/
  | badFaceAssert
  /-- `create_ibo` (`model.cpp`): "could not unmap IBO" -/
  | unmapIBO
  /-- `create_ibo` (`gfx.cpp`): "unexpected data" -/
  | unexpectedData
  /-- `Mesh::Mesh()`: "could not create VBO" -/
  | createVBO
  /-- `Mesh::Mesh()`: "could not create IBO" -/
  | createIBO
  /-- `Mesh::Mesh()`: "could not create VAO" -/
  | createVAO
  /-- shader-stage source read failure (spec §4.5 `SourceReadError`) -/
  | sourceRead
  /-- shader compile failure (spec §4.5 `ShaderCompileError`) -/
  | shaderCompile
  /-- program link failure (spec §4.5 `LinkError`) -/
  | linkFailed
  /-- GL object creation failure (spec §7 `ResourceCreationError`) -/
  | resourceCreation
deriving DecidableEq, Repr

/-- `is_textured` (`model.cpp`): `mesh.mTextureCoords[0] != nullptr`. -/
def is_textured (mesh : AiMesh) : Bool :=
  mesh.mTextureCoords0.isSome

/-- `has_material` (`model.cpp`): `mesh.mMaterialIndex != 0`. -/
def has_material (mesh : AiMesh) : Bool :=
  mesh.mMaterialIndex != 0

/-- Whether the two mapping calls a builder performs succeed
(`QOpenGLBuffer::map` returning null, `QOpenGLBuffer::unmap` returning
false, are the two collaborator outcomes the builders branch on). -/
structure BufEnv where
  mapOk : Bool
  unmapOk : Bool
deriving DecidableEq, Repr

/-- The observable binding state of one `QOpenGLBuffer` during a builder
call: `bind()` sets `bound`, `release()` clears it, `allocate()` sets
`allocated`, `map`/`unmap` toggle `mapped`. -/
structure BufState where
  bound : Bool
  allocated : Bool
  mapped : Bool
deriving DecidableEq, Repr

/-- The tail of `create_vbo` (`model.cpp`): `if (!vbo.unmap()) {
vbo.release(); throw } vbo.release(); return vbo;`. -/
def finish_vbo (e : BufEnv) (b : BufState) (buf : List Vertex) :
    Except Err (List Vertex) × BufState :=
  let b := { b with mapped := false }
  if !e.unmapOk then (.error .unmapVBO, { b with bound := false })
  else (.ok buf, { b with bound := false })

/-- `create_vbo` (`model.cpp`).  `init` is the indeterminate content of
the freshly allocated, mapped buffer region of `mVertices.length` records;
the first loop writes every record's `normal` and `position`, the
(guarded) second loop overwrites every record's `texcoords` with
`(u, 1 - v)`; an untextured mesh's records keep the region's prior
`texcoords` bytes.  The returned pair carries the written buffer contents
and the buffer's binding state. -/
def create_vbo (e : BufEnv) (init : List Vertex) (mesh : AiMesh)
    (b : BufState) : Except Err (List Vertex) × BufState :=
  let b := { b with bound := true }                    -- vbo.bind()
  let b := { b with allocated := true }                -- vbo.allocate(sizeof(Vertex) * mNumVertices)
  if !e.mapOk then
    (.error .mapVBO, { b with bound := false })        -- vbo.release(); throw
  else
    let b := { b with mapped := true }
    let n := mesh.mVertices.length
    let buf1 : List Vertex := (List.range n).map fun i =>
      { position := mesh.mVertices.getD i Vec3.zero
        normal := mesh.mNormals.getD i Vec3.zero
        texcoords := (init.getD i Vertex.zero).texcoords }
    match mesh.mTextureCoords0 with
    | none => finish_vbo e b buf1
    | some uvs =>
      if mesh.mNumUVComponents0 ≠ 2 then
        -- vbo.unmap(); vbo.release(); throw
        (.error .uvChannels, { b with mapped := false, bound := false })
      else
        let buf2 : List Vertex := (List.range n).map fun i =>
          { position := mesh.mVertices.getD i Vec3.zero
            normal := mesh.mNormals.getD i Vec3.zero
            texcoords := ⟨(uvs.getD i Vec2.zero).x, 1 - (uvs.getD i Vec2.zero).y⟩ }
        finish_vbo e b buf2

/-- The face loop of `create_ibo` (`model.cpp`):
`assert(mNumIndices == 3); std::copy_n(mIndices, 3, buffer); buffer += 3;`
The assert is embedded as the failure `badFaceAssert`. -/
def write_faces : List (List Nat) → Except Err (List Nat)
  | [] => .ok []
  | f :: fs =>
    if f.length ≠ 3 then .error .badFaceAssert
    else
      match write_faces fs with
      | .error e => .error e
      | .ok rest => .ok (f ++ rest)

/-- `create_ibo` (`model.cpp`).  Note the two failure exits that do NOT
call `ibo.release()`: the map failure and the unmap failure both throw
with the buffer still bound. -/
def create_ibo (e : BufEnv) (mesh : AiMesh) (b : BufState) :
    Except Err (List Nat) × BufState :=
  let b := { b with bound := true }                    -- ibo.bind()
  let b := { b with allocated := true }                -- ibo.allocate(sizeof(GLuint) * mNumFaces * 3)
  if !e.mapOk then
    (.error .mapIBO, b)                                -- throw, no release()
  else
    let b := { b with mapped := true }
    match write_faces mesh.mFaces with
    | .error err => (.error err, b)                    -- failed assert: still bound and mapped
    | .ok buf =>
      let b := { b with mapped := false }              -- ibo.unmap()
      if !e.unmapOk then (.error .unmapIBO, b)         -- throw, no release()
      else (.ok buf, { b with bound := false })        -- ibo.release()

namespace Gfx

/-- The face loop of the GL-handle `create_ibo` (`gfx.cpp`): a switch on
`mNumIndices` that copies 3 indices in its `case 3` branch and unmaps and
throws "unexpected data" in its `default` branch. -/
def write_faces : List (List Nat) → Except Err (List Nat)
  | [] => .ok []
  | f :: fs =>
    match f.length with
    | 3 =>
      match write_faces fs with
      | .error e => .error e
      | .ok rest => .ok (f ++ rest)
    | _ => .error .unexpectedData

/-- `create_ibo` (`gfx.cpp`), content and failure behavior: create/bind/
`glBufferData`, map (null map pointer throws), the switch-based face loop,
unmap (a GL error after unmapping throws).  Object-creation failures of
`create_buffer` are handled by the lifecycle model below. -/
def create_ibo (e : BufEnv) (mesh : AiMesh) : Except Err (List Nat) :=
  if !e.mapOk then .error .mapIBO
  else
    match write_faces mesh.mFaces with
    | .error err => .error err
    | .ok buf => if !e.unmapOk then .error .unmapIBO else .ok buf

end Gfx

/-- The `_materialIndex` step of the `load_meshes` loop (`model.cpp`):
`if (has_material(ai_mesh)) meshes[i]._materialIndex = ai_mesh.mMaterialIndex;`
— the built mesh's material reference stays unset (`none`) otherwise. -/
def load_meshes_materialIndex (scene : List AiMesh) : List (Option Nat) :=
  scene.map fun m =>
    if has_material m then some m.mMaterialIndex else none

/-- The local `struct Bound { float min; float max; }` of
`calculate_bounding_box` (`model.cpp`). -/
structure Bound where
  min : ℚ
  max : ℚ
deriving DecidableEq, Repr

/-- `tvec3<Bound>`: one `Bound` accumulator cell per axis. -/
structure Bound3 where
  x : Bound
  y : Bound
  z : Bound
deriving DecidableEq, Repr

/-- The `BoundingBox { center, size }` aggregate returned by
`calculate_bounding_box`. -/
structure BoundingBox where
  center : Vec3
  size : Vec3
deriving DecidableEq, Repr

/-- One iteration of the inner loops of `calculate_bounding_box`: for each
axis `c`, `bounds[c].min = std::min(bounds[c].min, v[c])` and
`bounds[c].max = std::max(bounds[c].max, v[c])`. -/
def boundsStep (b : Bound3) (v : Vec3) : Bound3 :=
  { x := ⟨min b.x.min v.x, max b.x.max v.x⟩
    y := ⟨min b.y.min v.y, max b.y.max v.y⟩
    z := ⟨min b.z.min v.z, max b.z.max v.z⟩ }

/-- `calculate_bounding_box` (`model.cpp`).  The C++ declares
`tvec3<Bound> bounds;` WITHOUT initializing it, so the fold over the
scene's vertices starts from whatever values the stack happened to hold;
that indeterminate initial accumulator is the explicit parameter
`bounds0`.  The scene is embedded as the list of its meshes' vertex
position lists (`mMeshes[i]->mVertices`).  The function is `noexcept` and
total: it has no failure path whatsoever. -/
def calculate_bounding_box (bounds0 : Bound3) (scene : List (List Vec3)) :
    BoundingBox :=
  let bounds := scene.foldl (fun b mesh => mesh.foldl boundsStep b) bounds0
  let size : Vec3 :=
    ⟨bounds.x.max - bounds.x.min,
     bounds.y.max - bounds.y.min,
     bounds.z.max - bounds.z.min⟩
  let center : Vec3 :=
    ⟨bounds.x.min + size.x / 2,
     bounds.y.min + size.y / 2,
     bounds.z.min + size.z / 2⟩
  ⟨center, size⟩

/-- The eight corners of the cube spanning `[-1, 1]` on every axis. -/
def unitCube : List Vec3 :=
  [⟨-1, -1, -1⟩, ⟨1, -1, -1⟩, ⟨-1, 1, -1⟩, ⟨1, 1, -1⟩,
   ⟨-1, -1, 1⟩, ⟨1, -1, 1⟩, ⟨-1, 1, 1⟩, ⟨1, 1, 1⟩]

/-- A mesh with no data, used as the `getD` fallback when indexing a
scene's mesh list. -/
def AiMesh.empty : AiMesh :=
  ⟨[], [], none, 0, [], 0⟩

/-- The four `aiTextureType` slot values `load_material` consumes. -/
inductive AiTextureType where
  | diffuse
  | ambient
  | specular
  | emissive
deriving DecidableEq, Repr

/-- The slice of `aiMaterial` the loaders consume.  `colors` holds the
named color properties readable through `aiMaterial::Get(pKey, ...)`
(an absent key embeds an unset property); `textures ttype` is the texture
stack of a slot type: `GetTextureCount(ttype)` is its length and
`GetTexture(ttype, 0, &str)` yields its head. -/
structure AiMaterial where
  colors : List (String × Vec3)
  textures : AiTextureType → List String

/-- Which filesystem paths decode to a valid image when handed to the
`QImage` constructor. -/
structure ImageEnv where
  decodes : String → Bool

/-- A `QImage`: constructing one from an unreadable or undecodable path
yields a null image, never an error. -/
structure QImage where
  isNull : Bool
deriving DecidableEq, Repr

/-- `QImage image { path }` (`LoadTexture`, `model.cpp`). -/
def loadQImage (env : ImageEnv) (path : String) : QImage :=
  ⟨!env.decodes path⟩

/-- A `QOpenGLTexture`, remembering the image it was constructed from. -/
structure QOpenGLTexture where
  image : QImage
deriving DecidableEq, Repr

/-- `LoadTexture` (`model.cpp`): constructs the texture from whatever
`QImage` resulted.  It checks nothing and has no failure path: a failed
image decode still yields a texture object (built from a null image). -/
def LoadTexture (env : ImageEnv) (path : String) : QOpenGLTexture :=
  ⟨loadQImage env path⟩

/-- `get_color` (`model.cpp`): `aiColor3D color;` is zero-initialized by
its constructor, and `material.Get(...)` leaves it untouched when the
property is absent, so an absent property reads as `(0,0,0)`. -/
def get_color (material : AiMaterial) (pKey : String) : Vec3 :=
  match material.colors.lookup pKey with
  | some c => c
  | none => Vec3.zero

/-- `get_shininess` (`model.cpp`): a deliberate stub returning 0. -/
def get_shininess (_material : AiMaterial) : ℚ :=
  0

/-- `get_path` (`model.cpp`): `GetTexture(type, 0, &str)` then
`base_path / str.data`.  Path joining is embedded as string joining. -/
def get_path (material : AiMaterial) (ttype : AiTextureType)
    (base_path : String) : String :=
  base_path ++ "/" ++ (material.textures ttype).headD ""

/-- `get_texture` (`model.cpp`): with at least one texture reported for
the slot it loads the first one's resolved path (warning, not error, on
more than one); with zero textures it returns the empty shared pointer. -/
def get_texture (env : ImageEnv) (material : AiMaterial)
    (ttype : AiTextureType) (base_path : String) : Option QOpenGLTexture :=
  let texture_count := (material.textures ttype).length
  if texture_count ≥ 1 then
    some (LoadTexture env (get_path material ttype base_path))
  else
    none

/-- The four optional texture slots of a built `Material`
(`material.hpp`). -/
structure TextureSlots where
  diffuse : Option QOpenGLTexture
  ambient : Option QOpenGLTexture
  specular : Option QOpenGLTexture
  emissive : Option QOpenGLTexture
deriving DecidableEq, Repr

/-- The built `Material` aggregate (`material.hpp`). -/
structure Material where
  diffuse : Vec3
  ambient : Vec3
  specular : Vec3
  emissive : Vec3
  shininess : ℚ
  textures : TextureSlots
deriving DecidableEq, Repr

/-- `load_material` (`model.cpp`): the four `AI_MATKEY_COLOR_*` keys, the
shininess stub, and the four texture slots.  The function is total: no
step of it can fail. -/
def load_material (env : ImageEnv) (material : AiMaterial)
    (base_path : String) : Material :=
  { diffuse := get_color material "$clr.diffuse"
    ambient := get_color material "$clr.ambient"
    specular := get_color material "$clr.specular"
    emissive := get_color material "$clr.emissive"
    shininess := get_shininess material
    textures :=
      { diffuse := get_texture env material .diffuse base_path
        ambient := get_texture env material .ambient base_path
        specular := get_texture env material .specular base_path
        emissive := get_texture env material .emissive base_path } }

/-!
Lifecycle model for the failure-safety claim.

`LoadModel` (`model.cpp`) assembles the model behind a local
`std::shared_ptr<Model>`; every GPU object created along the way is owned
either by a local temporary or (after the assignment/setter handing it
over) by that model object.  C++ stack unwinding runs the destructors of
fully constructed locals and members, and the Qt/`shader.hpp` wrapper
classes destroy their GL object in their destructor, so each `throw`
deterministically destroys a known set of objects.  The model counts live
GL objects (`live`) and the sub-count of objects currently owned,
transitively, by the model object (`modelOwned`); each embedded function
performs exactly the object creations and destructor-driven destructions
of its C++ counterpart.
-/

namespace Lifecycle

/-- GPU-object bookkeeping: `live` counts the GL objects currently alive
(buffers, vertex arrays, shaders, programs, textures); `modelOwned` counts
the live objects owned transitively by `LoadModel`'s local model object. -/
structure Gpu where
  live : Nat
  modelOwned : Nat
deriving DecidableEq, Repr

/-- Collaborator outcomes for one mesh: the three `create()` calls of
`Mesh::Mesh()`, the map/unmap calls of `create_vbo` and `create_ibo`, and
the UV-channel check (`uvOk` is false for a textured mesh whose
`mNumUVComponents[0] != 2`). -/
structure MeshEnv where
  vboCreateOk : Bool
  iboCreateOk : Bool
  vaoCreateOk : Bool
  mapVboOk : Bool
  uvOk : Bool
  unmapVboOk : Bool
  mapIboOk : Bool
  unmapIboOk : Bool
deriving DecidableEq, Repr

/-- Collaborator outcomes for the shader pipeline (spec §4.5): object
creation, source read and compile per stage, program creation and link. -/
structure ProgramEnv where
  vsCreateOk : Bool
  vsReadOk : Bool
  vsCompileOk : Bool
  fsCreateOk : Bool
  fsReadOk : Bool
  fsCompileOk : Bool
  progCreateOk : Bool
  linkOk : Bool
deriving DecidableEq, Repr

/-- Everything one `LoadModel` run depends on: the path check, the
importer outcome, the per-mesh collaborator outcomes, the number of
present texture slots per material (each present slot loads exactly one
texture, and `LoadTexture` cannot fail), and the shader outcomes. -/
structure LoadEnv where
  fileExists : Bool
  importOk : Bool
  meshes : List MeshEnv
  materialTextureCounts : List Nat
  prog : ProgramEnv
deriving DecidableEq, Repr

/-- `importScene` (`model.cpp`): the existence check, the property store,
`aiImportFileExWithProperties`.  No GPU object is touched; the returned
`aiScene` is CPU-side importer memory.  A null property store and a null
scene both throw `aiGetErrorString()` (`importFailed`). -/
def importScene (env : LoadEnv) (g : Gpu) : Except Err Unit × Gpu :=
  if !env.fileExists then (.error .fileNotFound, g)
  else if !env.importOk then (.error .importFailed, g)
  else (.ok (), g)

/-- `Mesh::Mesh()` (`mesh.cpp`): creates the VBO, IBO and VAO GL objects
in order, throwing if a `create()` fails.  When the constructor body
throws, the already-constructed Qt wrapper members are destroyed during
unwinding, destroying the GL objects they had created. -/
def meshCtor (m : MeshEnv) (g : Gpu) : Except Err Unit × Gpu :=
  if !m.vboCreateOk then (.error .createVBO, g)
  else
    let g := { g with live := g.live + 1 }
    if !m.iboCreateOk then (.error .createIBO, { g with live := g.live - 1 })
    else
      let g := { g with live := g.live + 1 }
      if !m.vaoCreateOk then (.error .createVAO, { g with live := g.live - 2 })
      else (.ok (), { g with live := g.live + 1 })

/-- `std::vector<Mesh>(n)` (`load_meshes`, `model.cpp`): constructs the
elements in order; if one constructor throws, the previously constructed
elements are destroyed (3 GL objects each) before the exception leaves
the vector constructor. -/
def constructMeshVector : List MeshEnv → Gpu → Except Err Unit × Gpu
  | [], g => (.ok (), g)
  | m :: ms, g =>
    match meshCtor m g with
    | (.error e, g) => (.error e, g)
    | (.ok _, g) =>
      match constructMeshVector ms g with
      | (.error e, g) => (.error e, { g with live := g.live - 3 })
      | (.ok _, g) => (.ok (), g)

/-- One iteration of the `load_meshes` loop: `create_vbo`, `create_ibo`,
`create_vao` on the buffers owned by the model's meshes.  These calls
allocate buffer storage and write data but create no further GL objects;
their failure exits (map, UV-channel check, unmap) throw while the buffer
objects stay owned by their mesh.  `create_vao` binds the program and
sets vertex attributes and cannot throw. -/
def buildMesh (m : MeshEnv) (g : Gpu) : Except Err Unit × Gpu :=
  if !m.mapVboOk then (.error .mapVBO, g)
  else if !m.uvOk then (.error .uvChannels, g)
  else if !m.unmapVboOk then (.error .unmapVBO, g)
  else if !m.mapIboOk then (.error .mapIBO, g)
  else if !m.unmapIboOk then (.error .unmapIBO, g)
  else (.ok (), g)

/-- The `for` loop of `load_meshes` over the constructed meshes. -/
def buildMeshes : List MeshEnv → Gpu → Except Err Unit × Gpu
  | [], g => (.ok (), g)
  | m :: ms, g =>
    match buildMesh m g with
    | (.error e, g) => (.error e, g)
    | (.ok _, g) => buildMeshes ms g

/-- `load_meshes` (`model.cpp`): rejects an empty scene, constructs the
mesh vector, assigns it into the model (`meshes = std::vector<Mesh>(n)` —
from then on the model owns the 3·n GL objects), then builds each mesh's
buffers. -/
def load_meshes (ms : List MeshEnv) (g : Gpu) : Except Err Unit × Gpu :=
  if ms.length = 0 then (.error .emptyModel, g)
  else
    match constructMeshVector ms g with
    | (.error e, g) => (.error e, g)
    | (.ok _, g) =>
      let g := { g with modelOwned := g.modelOwned + 3 * ms.length }
      buildMeshes ms g

/-- Modelled from the spec: `LoadProgram` comes from `shader.hpp`, which
is not among the sources; spec §4.5 describes per-stage compilation
(source read, compile) and linking, and §7 requires every step to release
its own GPU objects on each exit path.  Each shader object and the
program object is one GL object; after a successful link the shader
objects are released (§4.5: shader objects are never used after
linking). -/
def LoadProgram (p : ProgramEnv) (g : Gpu) : Except Err Unit × Gpu :=
  if !p.vsCreateOk then (.error .resourceCreation, g)
  else
    let g := { g with live := g.live + 1 }
    if !p.vsReadOk then (.error .sourceRead, { g with live := g.live - 1 })
    else if !p.vsCompileOk then
      (.error .shaderCompile, { g with live := g.live - 1 })
    else if !p.fsCreateOk then
      (.error .resourceCreation, { g with live := g.live - 1 })
    else
      let g := { g with live := g.live + 1 }
      if !p.fsReadOk then (.error .sourceRead, { g with live := g.live - 2 })
      else if !p.fsCompileOk then
        (.error .shaderCompile, { g with live := g.live - 2 })
      else if !p.progCreateOk then
        (.error .resourceCreation, { g with live := g.live - 2 })
      else
        let g := { g with live := g.live + 1 }
        if !p.linkOk then (.error .linkFailed, { g with live := g.live - 3 })
        else (.ok (), { g with live := g.live - 2 })

/-- `load_materials` (`model.cpp`): per material, `load_material` reads
colors (no GPU state) and loads one texture per present slot;
`LoadTexture` allocates one GL texture object and cannot fail, so the
whole pass cannot fail either. -/
def load_materials (counts : List Nat) (g : Gpu) : Gpu :=
  { g with live := g.live + counts.sum }

/-- Stack unwinding at a `throw` escaping `LoadModel`: the local
`std::shared_ptr<Model>` is the model's only owner, so its destructor
destroys the model, whose destructor chain (the meshes' Qt buffer and
vertex-array wrappers, the program, the materials' textures) destroys
every GL object the model owns. -/
def unwind (g : Gpu) : Gpu :=
  { live := g.live - g.modelOwned, modelOwned := 0 }

/-- The tail of `LoadModel` after `load_meshes` succeeded:
`model->setMaterials(load_materials(scene, ...))` (each present texture
slot loads one texture, all handed to the model) and
`model->setBoundingBox(calculate_bounding_box(scene))` (`noexcept`, no
GPU objects), then the model is returned. -/
def loadModelMaterialsStage (env : LoadEnv) (g : Gpu) :
    Except Err Unit × Gpu :=
  let g := load_materials env.materialTextureCounts g
  let g := { g with
    modelOwned := g.modelOwned + env.materialTextureCounts.sum }
  (.ok (), g)

/-- The tail of `LoadModel` after `setProgram`: the `load_meshes` call;
a `throw` escaping it unwinds the local model pointer. -/
def loadModelMeshesStage (env : LoadEnv) (g : Gpu) :
    Except Err Unit × Gpu :=
  match load_meshes env.meshes g with
  | (.error e, g) => (.error e, unwind g)
  | (.ok _, g) => loadModelMaterialsStage env g

/-- The tail of `LoadModel` after `importScene`:
`model->setProgram(LoadProgram(...))` — on success the program is handed
to the model; a `throw` escaping `LoadProgram` unwinds the local model
pointer. -/
def loadModelProgramStage (env : LoadEnv) (g : Gpu) :
    Except Err Unit × Gpu :=
  match LoadProgram env.prog g with
  | (.error e, g) => (.error e, unwind g)
  | (.ok _, g) =>
    loadModelMeshesStage env { g with modelOwned := g.modelOwned + 1 }

/-- `LoadModel` (`model.cpp`): make the (empty) model, import the scene,
then the program/meshes/materials stages above.  Every error exit passes
through the stack unwinding of the local model pointer (`unwind`). -/
def LoadModel (env : LoadEnv) (g : Gpu) : Except Err Unit × Gpu :=
  match importScene env g with
  | (.error e, g) => (.error e, unwind g)
  | (.ok _, g) => loadModelProgramStage env g

end Lifecycle

end Bgl

open Bgl Bgl.Lifecycle

theorem importScene_state (env : LoadEnv) (g : Gpu) :
    (importScene env g).2 = g := by
  cases h1 : env.fileExists <;> cases h2 : env.importOk <;>
    simp [importScene, h1, h2]

theorem LoadProgram_error (p : ProgramEnv) (g : Gpu)
    (h : ∃ e, (LoadProgram p g).1 = .error e) : (LoadProgram p g).2 = g := by
  obtain ⟨b1, b2, b3, b4, b5, b6, b7, b8⟩ := p
  cases b1 <;> cases b2 <;> cases b3 <;> cases b4 <;> cases b5 <;>
    cases b6 <;> cases b7 <;> cases b8 <;>
    simp_all [LoadProgram, Gpu.mk.injEq]

theorem LoadProgram_ok (p : ProgramEnv) (g : Gpu)
    (h : (LoadProgram p g).1 = .ok ()) :
    (LoadProgram p g).2 = ⟨g.live + 1, g.modelOwned⟩ := by
  obtain ⟨b1, b2, b3, b4, b5, b6, b7, b8⟩ := p
  cases b1 <;> cases b2 <;> cases b3 <;> cases b4 <;> cases b5 <;>
    cases b6 <;> cases b7 <;> cases b8 <;>
    simp_all [LoadProgram, Gpu.mk.injEq]

theorem meshCtor_error (m : MeshEnv) (g : Gpu)
    (h : ∃ e, (meshCtor m g).1 = .error e) : (meshCtor m g).2 = g := by
  obtain ⟨b1, b2, b3, _, _, _, _, _⟩ := m
  cases b1 <;> cases b2 <;> cases b3 <;> simp_all [meshCtor, Gpu.mk.injEq]

theorem meshCtor_ok (m : MeshEnv) (g : Gpu)
    (h : (meshCtor m g).1 = .ok ()) :
    (meshCtor m g).2 = ⟨g.live + 3, g.modelOwned⟩ := by
  obtain ⟨b1, b2, b3, _, _, _, _, _⟩ := m
  cases b1 <;> cases b2 <;> cases b3 <;> simp_all [meshCtor, Gpu.mk.injEq]

theorem constructMeshVector_error (ms : List MeshEnv) (g : Gpu)
    (h : ∃ e, (constructMeshVector ms g).1 = .error e) :
    (constructMeshVector ms g).2 = g := by
  induction ms generalizing g with
  | nil => obtain ⟨e, h⟩ := h; simp [constructMeshVector] at h
  | cons m ms ih =>
    obtain ⟨e, h⟩ := h
    rcases hc : meshCtor m g with ⟨rc, gc⟩
    cases rc with
    | error e1 =>
      have hstep : constructMeshVector (m :: ms) g = (.error e1, gc) := by
        unfold constructMeshVector; rw [hc]
      have hgc : gc = g := by
        have := meshCtor_error m g ⟨e1, by rw [hc]⟩; rw [hc] at this
        exact this
      rw [hstep, hgc]
    | ok u =>
      cases u
      have hgc : gc = ⟨g.live + 3, g.modelOwned⟩ := by
        have := meshCtor_ok m g (by rw [hc]); rw [hc] at this; exact this
      have hstep : constructMeshVector (m :: ms) g =
          match constructMeshVector ms gc with
          | (.error e, g2) => (.error e, ⟨g2.live - 3, g2.modelOwned⟩)
          | (.ok _, g2) => (.ok (), g2) := by
        simp only [constructMeshVector]; rw [hc]
      rcases hr : constructMeshVector ms gc with ⟨rr, gr⟩
      cases rr with
      | error e2 =>
        have hgr : gr = gc := by
          have := ih gc ⟨e2, by rw [hr]⟩; rw [hr] at this; exact this
        rw [hstep, hr]
        show (⟨gr.live - 3, gr.modelOwned⟩ : Gpu) = g
        rw [hgr, hgc]
        show (⟨g.live + 3 - 3, g.modelOwned⟩ : Gpu) = g
        simp
      | ok u2 =>
        cases u2
        rw [hstep, hr] at h
        simp at h

theorem constructMeshVector_ok (ms : List MeshEnv) (g : Gpu)
    (h : (constructMeshVector ms g).1 = .ok ()) :
    (constructMeshVector ms g).2 = ⟨g.live + 3 * ms.length, g.modelOwned⟩ := by
  induction ms generalizing g with
  | nil => simp [constructMeshVector]
  | cons m ms ih =>
    rcases hc : meshCtor m g with ⟨rc, gc⟩
    cases rc with
    | error e1 =>
      have hstep : constructMeshVector (m :: ms) g = (.error e1, gc) := by
        unfold constructMeshVector; rw [hc]
      rw [hstep] at h
      simp at h
    | ok u =>
      cases u
      have hgc : gc = ⟨g.live + 3, g.modelOwned⟩ := by
        have := meshCtor_ok m g (by rw [hc]); rw [hc] at this; exact this
      have hstep : constructMeshVector (m :: ms) g =
          match constructMeshVector ms gc with
          | (.error e, g2) => (.error e, ⟨g2.live - 3, g2.modelOwned⟩)
          | (.ok _, g2) => (.ok (), g2) := by
        simp only [constructMeshVector]; rw [hc]
      rcases hr : constructMeshVector ms gc with ⟨rr, gr⟩
      cases rr with
      | error e2 =>
        rw [hstep, hr] at h
        simp at h
      | ok u2 =>
        cases u2
        have hgr : gr = ⟨gc.live + 3 * ms.length, gc.modelOwned⟩ := by
          have := ih gc (by rw [hr]); rw [hr] at this; exact this
        rw [hstep, hr]
        show gr = ⟨g.live + 3 * (m :: ms).length, g.modelOwned⟩
        rw [hgr, hgc]
        rw [Gpu.mk.injEq]
        refine ⟨?_, rfl⟩
        show g.live + 3 + 3 * ms.length = g.live + 3 * (ms.length + 1)
        omega

theorem buildMesh_state (m : MeshEnv) (g : Gpu) : (buildMesh m g).2 = g := by
  obtain ⟨_, _, _, b4, b5, b6, b7, b8⟩ := m
  cases b4 <;> cases b5 <;> cases b6 <;> cases b7 <;> cases b8 <;>
    simp [buildMesh]

theorem buildMeshes_state (ms : List MeshEnv) (g : Gpu) :
    (buildMeshes ms g).2 = g := by
  induction ms generalizing g with
  | nil => rfl
  | cons m ms ih =>
    unfold buildMeshes
    rcases hb : buildMesh m g with ⟨rb, gb⟩
    have hgb : gb = g := by
      have := buildMesh_state m g; rw [hb] at this; exact this
    cases rb <;> simp [hgb, ih]

theorem load_meshes_error (ms : List MeshEnv) (g : Gpu)
    (h : ∃ e, (load_meshes ms g).1 = .error e) :
    (load_meshes ms g).2 = g ∨
      (load_meshes ms g).2 =
        ⟨g.live + 3 * ms.length, g.modelOwned + 3 * ms.length⟩ := by
  obtain ⟨e, h⟩ := h
  by_cases hlen : ms.length = 0
  · left
    have hstep : load_meshes ms g = (.error .emptyModel, g) := by
      unfold load_meshes; rw [if_pos hlen]
    rw [hstep]
  · rcases hc : constructMeshVector ms g with ⟨rc, gc⟩
    cases rc with
    | error e1 =>
      left
      have hstep : load_meshes ms g = (.error e1, gc) := by
        unfold load_meshes; rw [if_neg hlen, hc]
      have hgc : gc = g := by
        have := constructMeshVector_error ms g ⟨e1, by rw [hc]⟩
        rw [hc] at this; exact this
      rw [hstep, hgc]
    | ok u =>
      cases u
      right
      have hgc : gc = ⟨g.live + 3 * ms.length, g.modelOwned⟩ := by
        have := constructMeshVector_ok ms g (by rw [hc])
        rw [hc] at this; exact this
      have hstep : load_meshes ms g =
          buildMeshes ms ⟨gc.live, gc.modelOwned + 3 * ms.length⟩ := by
        unfold load_meshes; rw [if_neg hlen, hc]
      rw [hstep, buildMeshes_state, hgc]

theorem loadModelMeshesStage_error (env : LoadEnv) (g : Gpu)
    (hinv : g.live = g.modelOwned)
    (h : ∃ e, (loadModelMeshesStage env g).1 = .error e) :
    (loadModelMeshesStage env g).2 = ⟨0, 0⟩ := by
  obtain ⟨e, h⟩ := h
  rcases hm : load_meshes env.meshes g with ⟨rm, gm⟩
  cases rm with
  | error e3 =>
    have hstep : loadModelMeshesStage env g = (.error e3, unwind gm) := by
      unfold loadModelMeshesStage; rw [hm]
    rw [hstep]
    show unwind gm = ⟨0, 0⟩
    rcases load_meshes_error env.meshes g ⟨e3, by rw [hm]⟩ with hgm | hgm <;>
      rw [hm] at hgm
    · have hgm2 : gm = g := hgm
      rw [hgm2]
      simp [unwind, hinv]
    · have hgm2 : gm = ⟨g.live + 3 * env.meshes.length,
          g.modelOwned + 3 * env.meshes.length⟩ := hgm
      rw [hgm2]
      simp only [unwind, Gpu.mk.injEq]
      refine ⟨?_, trivial⟩
      omega
  | ok u =>
    cases u
    have hstep : loadModelMeshesStage env g =
        loadModelMaterialsStage env gm := by
      unfold loadModelMeshesStage; rw [hm]
    rw [hstep] at h
    simp [loadModelMaterialsStage] at h

theorem loadModelProgramStage_error (env : LoadEnv) (g : Gpu)
    (hinv : g.live = g.modelOwned)
    (h : ∃ e, (loadModelProgramStage env g).1 = .error e) :
    (loadModelProgramStage env g).2 = ⟨0, 0⟩ := by
  obtain ⟨e, h⟩ := h
  rcases hp : LoadProgram env.prog g with ⟨rp, gp⟩
  cases rp with
  | error e2 =>
    have hstep : loadModelProgramStage env g = (.error e2, unwind gp) := by
      unfold loadModelProgramStage; rw [hp]
    have hgp : gp = g := by
      have := LoadProgram_error env.prog g ⟨e2, by rw [hp]⟩
      rw [hp] at this; exact this
    rw [hstep, hgp]
    show unwind g = ⟨0, 0⟩
    simp [unwind, hinv]
  | ok u =>
    cases u
    have hgp : gp = ⟨g.live + 1, g.modelOwned⟩ := by
      have := LoadProgram_ok env.prog g (by rw [hp])
      rw [hp] at this; exact this
    have hstep : loadModelProgramStage env g =
        loadModelMeshesStage env ⟨gp.live, gp.modelOwned + 1⟩ := by
      unfold loadModelProgramStage; rw [hp]
    rw [hstep] at h ⊢
    apply loadModelMeshesStage_error
    · show gp.live = gp.modelOwned + 1
      rw [hgp]
      show g.live + 1 = g.modelOwned + 1
      omega
    · exact ⟨e, h⟩

theorem LoadModel_failure_state (env : LoadEnv) (e : Err)
    (h : (LoadModel env ⟨0, 0⟩).1 = .error e) :
    (LoadModel env ⟨0, 0⟩).2 = ⟨0, 0⟩ := by
  rcases hi : importScene env ⟨0, 0⟩ with ⟨ri, gi⟩
  have hgi : gi = ⟨0, 0⟩ := by
    have := importScene_state env ⟨0, 0⟩; rw [hi] at this; exact this
  cases ri with
  | error e1 =>
    have hstep : LoadModel env ⟨0, 0⟩ = (.error e1, unwind gi) := by
      unfold LoadModel; rw [hi]
    rw [hstep, hgi]
    show unwind ⟨0, 0⟩ = ⟨0, 0⟩
    simp [unwind]
  | ok u =>
    cases u
    have hstep : LoadModel env ⟨0, 0⟩ = loadModelProgramStage env gi := by
      unfold LoadModel; rw [hi]
    rw [hstep] at h ⊢
    rw [hgi] at h ⊢
    exact loadModelProgramStage_error env ⟨0, 0⟩ rfl ⟨e, h⟩

/-- C2: the claim asserts the bounding-box calculator returns
center `(0,0,0)` and size `(2,2,2)` for a mesh spanning `[-1,1]` on every
axis, and in general a box derived from the per-axis min/max of the vertex
positions alone.  The code's accumulator is uninitialized, so residual
stack contents take part in the min/max fold: with residual cell values
`{min = -5, max = 5}` the unit cube yields `size = (10,10,10)`, not
`(2,2,2)`. -/
theorem calculate_bounding_box_unitCube_garbage :
    Bgl.calculate_bounding_box ⟨⟨-5, 5⟩, ⟨-5, 5⟩, ⟨-5, 5⟩⟩ [Bgl.unitCube]
      = ⟨⟨0, 0, 0⟩, ⟨10, 10, 10⟩⟩ ∧
    (Bgl.calculate_bounding_box ⟨⟨-5, 5⟩, ⟨-5, 5⟩, ⟨-5, 5⟩⟩
      [Bgl.unitCube]).size ≠ ⟨2, 2, 2⟩ := by
  constructor
  · simp only [Bgl.calculate_bounding_box, Bgl.boundsStep, Bgl.unitCube,
      List.foldl, min_def, max_def]
    norm_num
  · simp only [Bgl.calculate_bounding_box, Bgl.boundsStep, Bgl.unitCube,
      List.foldl, min_def, max_def]
    norm_num [Bgl.Vec3.mk.injEq]

/-- C3: the claim asserts that on a scene with zero vertices the
calculator fails with `DegenerateGeometryError`.  The code is `noexcept`
with no check at all: on a scene holding one mesh with zero vertices it
returns normally, producing a box derived purely from the uninitialized
accumulator — here even one with negative size. -/
theorem calculate_bounding_box_zero_vertices_returns :
    Bgl.calculate_bounding_box ⟨⟨3, -4⟩, ⟨3, -4⟩, ⟨3, -4⟩⟩ [[]]
      = ⟨⟨-1/2, -1/2, -1/2⟩, ⟨-7, -7, -7⟩⟩ := by
  simp only [Bgl.calculate_bounding_box, List.foldl]
  norm_num

/-- C1: for every `LoadModel` call that fails at any step — non-existent
path, importer rejection, empty scene, geometry build failure (object
creation, mapping, the UV-channel check, unmapping) — no model is
returned (the result is `Except.error`) and zero GPU objects remain
allocated once the error has propagated out of `LoadModel`: every
GL object created along the way was owned by a local temporary or by the
local model pointer, and stack unwinding destroys them all.  (Material
and texture loading has no failure path in this code: `LoadTexture`
cannot fail.)  The `Model` destructor chain and `LoadProgram` come from
headers that are not among the sources and are modelled from the spec
(§3, §4.5, §7). -/
theorem LoadModel_failure_no_gpu_leak (env : LoadEnv) (e : Err)
    (h : (LoadModel env ⟨0, 0⟩).1 = .error e) :
    (LoadModel env ⟨0, 0⟩).2.live = 0 := by
  rw [LoadModel_failure_state env e h]

/-- Witness for C1: a run with two meshes whose second mesh's index-buffer
mapping fails, after the program and all six buffer objects were already
created: it fails with the IBO map error and ends with zero live GPU
objects. -/
theorem LoadModel_failure_no_gpu_leak_witness :
    (LoadModel
        ⟨true, true,
         [⟨true, true, true, true, true, true, true, true⟩,
          ⟨true, true, true, true, true, true, false, true⟩],
         [2, 1],
         ⟨true, true, true, true, true, true, true, true⟩⟩ ⟨0, 0⟩).1 =
      .error .mapIBO ∧
    (LoadModel
        ⟨true, true,
         [⟨true, true, true, true, true, true, true, true⟩,
          ⟨true, true, true, true, true, true, false, true⟩],
         [2, 1],
         ⟨true, true, true, true, true, true, true, true⟩⟩ ⟨0, 0⟩).2.live =
      0 :=
  ⟨by rfl,
   LoadModel_failure_no_gpu_leak _ .mapIBO (by rfl)⟩

theorem range_map_getD {α : Type} (f : Nat → α) (d : α) (i n : Nat)
    (h : i < n) : ((List.range n).map f).getD i d = f i := by
  rw [List.getD_eq_getElem?_getD, List.getElem?_map, List.getElem?_range h]
  rfl

theorem write_faces_ok (fs : List (List Nat))
    (h : ∀ f ∈ fs, f.length = 3) :
    Bgl.write_faces fs = .ok fs.flatten := by
  induction fs with
  | nil => rfl
  | cons f fs ih =>
    have hf : f.length = 3 := h f (List.mem_cons_self f fs)
    have ih2 := ih fun g hg => h g (List.mem_cons_of_mem f hg)
    simp [Bgl.write_faces, hf, ih2]

theorem write_faces_error (fs : List (List Nat))
    (h : ∃ f ∈ fs, f.length ≠ 3) :
    Bgl.write_faces fs = .error .badFaceAssert := by
  induction fs with
  | nil => simp at h
  | cons f fs ih =>
    by_cases hf : f.length = 3
    · obtain ⟨g, hg, hgl⟩ := h
      rcases List.mem_cons.mp hg with rfl | hg2
      · exact absurd hf hgl
      · have := ih ⟨g, hg2, hgl⟩
        simp [Bgl.write_faces, hf, this]
    · simp [Bgl.write_faces, hf]

theorem match3_eq_if {α : Type} (x : Nat) (a b : α) :
    (match x with | 3 => a | _ => b) = if x = 3 then a else b := by
  match x with
  | 0 => rfl
  | 1 => rfl
  | 2 => rfl
  | 3 => rfl
  | n + 4 => rfl

theorem gfx_write_faces_ok (fs : List (List Nat))
    (h : ∀ f ∈ fs, f.length = 3) :
    Bgl.Gfx.write_faces fs = .ok fs.flatten := by
  induction fs with
  | nil => rfl
  | cons f fs ih =>
    have hf : f.length = 3 := h f (List.mem_cons_self f fs)
    have ih2 := ih fun g hg => h g (List.mem_cons_of_mem f hg)
    rw [Bgl.Gfx.write_faces, match3_eq_if]
    simp [hf, ih2]

theorem gfx_write_faces_error (fs : List (List Nat))
    (h : ∃ f ∈ fs, f.length ≠ 3) :
    Bgl.Gfx.write_faces fs = .error .unexpectedData := by
  induction fs with
  | nil => simp at h
  | cons f fs ih =>
    rw [Bgl.Gfx.write_faces, match3_eq_if]
    by_cases hf : f.length = 3
    · obtain ⟨g, hg, hgl⟩ := h
      rcases List.mem_cons.mp hg with rfl | hg2
      · exact absurd hf hgl
      · have := ih ⟨g, hg2, hgl⟩
        simp [hf, this]
    · simp [hf]

open Bgl in
/-- C4: for every raw mesh, both index-buffer builders (`create_ibo` in
`model.cpp`, whose debug `assert` is the failing check, and `create_ibo`
in `gfx.cpp`, which throws "unexpected data") fail when some face reports
a number of indices other than 3, and otherwise write exactly each face's
3 indices in face order (the concatenation of the faces). -/
theorem create_ibo_triangles_only (e : BufEnv) (mesh : AiMesh)
    (b : BufState) (hmap : e.mapOk = true) (hunmap : e.unmapOk = true) :
    ((∀ f ∈ mesh.mFaces, f.length = 3) →
        (create_ibo e mesh b).1 = .ok mesh.mFaces.flatten ∧
        Gfx.create_ibo e mesh = .ok mesh.mFaces.flatten) ∧
    ((∃ f ∈ mesh.mFaces, f.length ≠ 3) →
        (create_ibo e mesh b).1 = .error .badFaceAssert ∧
        Gfx.create_ibo e mesh = .error .unexpectedData) :=
  ⟨fun h => by
      simp [create_ibo, Gfx.create_ibo, hmap, hunmap,
        write_faces_ok mesh.mFaces h, gfx_write_faces_ok mesh.mFaces h],
   fun h => by
      simp [create_ibo, Gfx.create_ibo, hmap, hunmap,
        write_faces_error mesh.mFaces h, gfx_write_faces_error mesh.mFaces h]⟩

/-- Witness for C4: a two-triangle mesh builds the flat index list
`[0,1,2,2,3,0]` in both builders; a mesh with one 4-index face fails both
builders. -/
theorem create_ibo_triangles_only_witness :
    ((Bgl.create_ibo ⟨true, true⟩ ⟨[], [], none, 0, [[0, 1, 2], [2, 3, 0]], 0⟩
        ⟨false, false, false⟩).1 = .ok [0, 1, 2, 2, 3, 0] ∧
      Bgl.Gfx.create_ibo ⟨true, true⟩ ⟨[], [], none, 0, [[0, 1, 2], [2, 3, 0]], 0⟩ =
        .ok [0, 1, 2, 2, 3, 0]) ∧
    ((Bgl.create_ibo ⟨true, true⟩ ⟨[], [], none, 0, [[0, 1, 2, 3]], 0⟩
        ⟨false, false, false⟩).1 = .error .badFaceAssert ∧
      Bgl.Gfx.create_ibo ⟨true, true⟩ ⟨[], [], none, 0, [[0, 1, 2, 3]], 0⟩ =
        .error .unexpectedData) :=
  ⟨(create_ibo_triangles_only ⟨true, true⟩ ⟨[], [], none, 0, [[0, 1, 2], [2, 3, 0]], 0⟩
      ⟨false, false, false⟩ rfl rfl).1 (by decide),
   (create_ibo_triangles_only ⟨true, true⟩ ⟨[], [], none, 0, [[0, 1, 2, 3]], 0⟩
      ⟨false, false, false⟩ rfl rfl).2 ⟨[0, 1, 2, 3], by decide, by decide⟩⟩

/-- C5 counterexample: the claim says the `texcoords` field is `(0,0)`
whenever the mesh has no UV channel at slot 0.  The code never writes
`texcoords` for an untextured mesh, so the record keeps whatever the
freshly allocated mapped region already held: with residual contents
`(7,7)` the built record's texcoords are `(7,7)`, not `(0,0)`. -/
theorem create_vbo_untextured_texcoords_garbage :
    ((Bgl.create_vbo ⟨true, true⟩ [⟨⟨9, 9, 9⟩, ⟨9, 9, 9⟩, ⟨7, 7⟩⟩]
        ⟨[⟨1, 2, 3⟩], [⟨0, 0, 1⟩], none, 0, [], 0⟩
        ⟨false, false, false⟩).1 =
      .ok [⟨⟨1, 2, 3⟩, ⟨0, 0, 1⟩, ⟨7, 7⟩⟩]) ∧
    (Bgl.Vec2.mk 7 7 ≠ ⟨0, 0⟩) := by
  constructor
  · rfl
  · intro hcontra
    rw [Bgl.Vec2.mk.injEq] at hcontra
    exact absurd hcontra.1 (by norm_num)

/-- C5 (amended): for every mesh with N vertices that passes the
builder's checks (no UV channel, or a UV channel with exactly 2
components — otherwise `create_vbo` throws, which is C4/C6 territory),
`create_vbo` succeeds with exactly N fixed-layout records whose
`position` and `normal` equal the source mesh's values (exactly, hence
within any tolerance); when the mesh has no UV channel at slot 0, the
`texcoords` field retains the mapped region's prior (indeterminate)
contents instead of a guaranteed `(0,0)`. -/
theorem create_vbo_builds_records (e : Bgl.BufEnv) (init : List Bgl.Vertex)
    (mesh : Bgl.AiMesh) (b : Bgl.BufState)
    (hmap : e.mapOk = true) (hunmap : e.unmapOk = true)
    (huv : mesh.mTextureCoords0 = none ∨ mesh.mNumUVComponents0 = 2) :
    ∃ buf, (Bgl.create_vbo e init mesh b).1 = .ok buf ∧
      buf.length = mesh.mVertices.length ∧
      (∀ i, i < mesh.mVertices.length →
        (buf.getD i Bgl.Vertex.zero).position =
            mesh.mVertices.getD i Bgl.Vec3.zero ∧
          (buf.getD i Bgl.Vertex.zero).normal =
            mesh.mNormals.getD i Bgl.Vec3.zero) ∧
      (mesh.mTextureCoords0 = none →
        ∀ i, i < mesh.mVertices.length →
          (buf.getD i Bgl.Vertex.zero).texcoords =
            (init.getD i Bgl.Vertex.zero).texcoords) := by
  rcases htex : mesh.mTextureCoords0 with _ | uvs
  · refine ⟨(List.range mesh.mVertices.length).map fun i =>
      ⟨mesh.mVertices.getD i Bgl.Vec3.zero, mesh.mNormals.getD i Bgl.Vec3.zero,
        (init.getD i Bgl.Vertex.zero).texcoords⟩, ?_, ?_, ?_, ?_⟩
    · simp [Bgl.create_vbo, Bgl.finish_vbo, hmap, hunmap, htex]
    · simp
    · intro i hi
      rw [range_map_getD _ _ _ _ hi]
      exact ⟨rfl, rfl⟩
    · intro _ i hi
      rw [range_map_getD _ _ _ _ hi]
  · have huv2 : mesh.mNumUVComponents0 = 2 := by
      rcases huv with h | h
      · rw [htex] at h
        exact absurd h (by simp)
      · exact h
    refine ⟨(List.range mesh.mVertices.length).map fun i =>
      ⟨mesh.mVertices.getD i Bgl.Vec3.zero, mesh.mNormals.getD i Bgl.Vec3.zero,
        ⟨(uvs.getD i Bgl.Vec2.zero).x, 1 - (uvs.getD i Bgl.Vec2.zero).y⟩⟩,
      ?_, ?_, ?_, ?_⟩
    · simp [Bgl.create_vbo, Bgl.finish_vbo, hmap, hunmap, htex, huv2]
    · simp
    · intro i hi
      rw [range_map_getD _ _ _ _ hi]
      exact ⟨rfl, rfl⟩
    · intro hcontra
      simp [htex] at hcontra

/-- Witness for C5, both branches of the amended claim: an untextured
one-vertex mesh with residual buffer texcoords `(5,6)` builds one record
carrying position `(1,2,3)`, normal `(0,0,1)` and the residual
texcoords; the same mesh with UV channel `[(3,0)]` still builds one
record with the same source position and normal. -/
theorem create_vbo_builds_records_witness :
    (∃ buf,
      (Bgl.create_vbo ⟨true, true⟩ [⟨⟨9, 9, 9⟩, ⟨9, 9, 9⟩, ⟨5, 6⟩⟩]
          ⟨[⟨1, 2, 3⟩], [⟨0, 0, 1⟩], none, 0, [], 0⟩
          ⟨false, false, false⟩).1 = .ok buf ∧
      buf.length = 1 ∧
      (∀ i, i < 1 →
        (buf.getD i Bgl.Vertex.zero).position =
            ([Bgl.Vec3.mk 1 2 3].getD i Bgl.Vec3.zero) ∧
          (buf.getD i Bgl.Vertex.zero).normal =
            ([Bgl.Vec3.mk 0 0 1].getD i Bgl.Vec3.zero)) ∧
      ((none : Option (List Bgl.Vec2)) = none →
        ∀ i, i < 1 →
          (buf.getD i Bgl.Vertex.zero).texcoords =
            (([⟨⟨9, 9, 9⟩, ⟨9, 9, 9⟩, ⟨5, 6⟩⟩] :
                List Bgl.Vertex).getD i Bgl.Vertex.zero).texcoords)) ∧
    (∃ buf,
      (Bgl.create_vbo ⟨true, true⟩ [⟨⟨9, 9, 9⟩, ⟨9, 9, 9⟩, ⟨5, 6⟩⟩]
          ⟨[⟨1, 2, 3⟩], [⟨0, 0, 1⟩], some [⟨3, 0⟩], 2, [], 0⟩
          ⟨false, false, false⟩).1 = .ok buf ∧
      buf.length = 1 ∧
      (∀ i, i < 1 →
        (buf.getD i Bgl.Vertex.zero).position =
            ([Bgl.Vec3.mk 1 2 3].getD i Bgl.Vec3.zero) ∧
          (buf.getD i Bgl.Vertex.zero).normal =
            ([Bgl.Vec3.mk 0 0 1].getD i Bgl.Vec3.zero)) ∧
      ((some [Bgl.Vec2.mk 3 0] : Option (List Bgl.Vec2)) = none →
        ∀ i, i < 1 →
          (buf.getD i Bgl.Vertex.zero).texcoords =
            (([⟨⟨9, 9, 9⟩, ⟨9, 9, 9⟩, ⟨5, 6⟩⟩] :
                List Bgl.Vertex).getD i Bgl.Vertex.zero).texcoords)) :=
  ⟨create_vbo_builds_records ⟨true, true⟩ [⟨⟨9, 9, 9⟩, ⟨9, 9, 9⟩, ⟨5, 6⟩⟩]
      ⟨[⟨1, 2, 3⟩], [⟨0, 0, 1⟩], none, 0, [], 0⟩ ⟨false, false, false⟩
      rfl rfl (Or.inl rfl),
   create_vbo_builds_records ⟨true, true⟩ [⟨⟨9, 9, 9⟩, ⟨9, 9, 9⟩, ⟨5, 6⟩⟩]
      ⟨[⟨1, 2, 3⟩], [⟨0, 0, 1⟩], some [⟨3, 0⟩], 2, [], 0⟩ ⟨false, false, false⟩
      rfl rfl (Or.inr rfl)⟩

/-- C9: for a textured mesh (UV channel present at slot 0, two UV
components), the `texcoords` written for vertex `i` are
`(u_i, 1 - v_i)` — the v coordinate is flipped, not copied. -/
theorem create_vbo_flips_v (e : Bgl.BufEnv) (init : List Bgl.Vertex)
    (mesh : Bgl.AiMesh) (b : Bgl.BufState) (uvs : List Bgl.Vec2)
    (hmap : e.mapOk = true) (hunmap : e.unmapOk = true)
    (htex : mesh.mTextureCoords0 = some uvs)
    (huv : mesh.mNumUVComponents0 = 2) :
    ∃ buf, (Bgl.create_vbo e init mesh b).1 = .ok buf ∧
      buf.length = mesh.mVertices.length ∧
      ∀ i, i < mesh.mVertices.length →
        (buf.getD i Bgl.Vertex.zero).texcoords =
          ⟨(uvs.getD i Bgl.Vec2.zero).x, 1 - (uvs.getD i Bgl.Vec2.zero).y⟩ := by
  refine ⟨(List.range mesh.mVertices.length).map fun i =>
    ⟨mesh.mVertices.getD i Bgl.Vec3.zero, mesh.mNormals.getD i Bgl.Vec3.zero,
      ⟨(uvs.getD i Bgl.Vec2.zero).x, 1 - (uvs.getD i Bgl.Vec2.zero).y⟩⟩,
    ?_, ?_, ?_⟩
  · simp [Bgl.create_vbo, Bgl.finish_vbo, hmap, hunmap, htex, huv]
  · simp
  · intro i hi
    rw [range_map_getD _ _ _ _ hi]

/-- Witness for C9: a one-vertex mesh with source UV `(3, 0)` builds a
record whose texcoords are `(3, 1 - 0)`. -/
theorem create_vbo_flips_v_witness :
    ∃ buf,
      (Bgl.create_vbo ⟨true, true⟩ [⟨⟨9, 9, 9⟩, ⟨9, 9, 9⟩, ⟨5, 6⟩⟩]
          ⟨[⟨1, 2, 3⟩], [⟨0, 0, 1⟩], some [⟨3, 0⟩], 2, [], 0⟩
          ⟨false, false, false⟩).1 = .ok buf ∧
      buf.length = 1 ∧
      ∀ i, i < 1 →
        (buf.getD i Bgl.Vertex.zero).texcoords =
          ⟨(([Bgl.Vec2.mk 3 0].getD i Bgl.Vec2.zero)).x,
            1 - (([Bgl.Vec2.mk 3 0].getD i Bgl.Vec2.zero)).y⟩ :=
  create_vbo_flips_v ⟨true, true⟩ [⟨⟨9, 9, 9⟩, ⟨9, 9, 9⟩, ⟨5, 6⟩⟩]
    ⟨[⟨1, 2, 3⟩], [⟨0, 0, 1⟩], some [⟨3, 0⟩], 2, [], 0⟩ ⟨false, false, false⟩
    [⟨3, 0⟩] rfl rfl rfl rfl

/-- C6 counterexample: the claim says every buffer whose mapping fails is
released before the error propagates.  In `create_ibo` (`model.cpp`) the
map-failure branch is `throw std::runtime_error{"could not map IBO"}`
with no `ibo.release()`: the call fails but the buffer stays bound. -/
theorem create_ibo_map_failure_not_released :
    (Bgl.create_ibo ⟨false, true⟩ Bgl.AiMesh.empty
        ⟨false, false, false⟩).1 = .error .mapIBO ∧
    (Bgl.create_ibo ⟨false, true⟩ Bgl.AiMesh.empty
        ⟨false, false, false⟩).2.bound = true :=
  ⟨rfl, rfl⟩

/-- C6 (amended): on a mapping failure both builders throw their map
error, but only the vertex-buffer path calls `release()` before
propagating; the index-buffer path leaves the buffer bound. -/
theorem map_failure_release_behavior (e : Bgl.BufEnv)
    (init : List Bgl.Vertex) (mesh : Bgl.AiMesh) (b : Bgl.BufState)
    (h : e.mapOk = false) :
    ((Bgl.create_vbo e init mesh b).1 = .error .mapVBO ∧
      (Bgl.create_vbo e init mesh b).2.bound = false) ∧
    ((Bgl.create_ibo e mesh b).1 = .error .mapIBO ∧
      (Bgl.create_ibo e mesh b).2.bound = true) := by
  refine ⟨⟨?_, ?_⟩, ?_, ?_⟩ <;>
    simp [Bgl.create_vbo, Bgl.create_ibo, h]

/-- Witness for C6: with a failing map, the concrete VBO call errors with
the buffer unbound and the concrete IBO call errors with it bound. -/
theorem map_failure_release_behavior_witness :
    ((Bgl.create_vbo ⟨false, true⟩ [] Bgl.AiMesh.empty
        ⟨false, false, false⟩).1 = .error .mapVBO ∧
      (Bgl.create_vbo ⟨false, true⟩ [] Bgl.AiMesh.empty
        ⟨false, false, false⟩).2.bound = false) ∧
    ((Bgl.create_ibo ⟨false, true⟩ Bgl.AiMesh.empty
        ⟨false, false, false⟩).1 = .error .mapIBO ∧
      (Bgl.create_ibo ⟨false, true⟩ Bgl.AiMesh.empty
        ⟨false, false, false⟩).2.bound = true) :=
  map_failure_release_behavior ⟨false, true⟩ [] Bgl.AiMesh.empty
    ⟨false, false, false⟩ rfl

/-- C7 counterexample: the claim says a texture-load failure fails the
whole `load_material` call with `TextureLoadError`.  `LoadTexture` has no
failure path: with an environment in which no path decodes, a material
with one texture in every slot still loads successfully, each slot
holding a texture constructed from a null image — the failure is
swallowed (and not even into an absent slot). -/
theorem load_material_swallows_decode_failure :
    Bgl.load_material ⟨fun _ => false⟩ ⟨[], fun _ => ["albedo.png"]⟩
        "scene_dir" =
      { diffuse := ⟨0, 0, 0⟩, ambient := ⟨0, 0, 0⟩, specular := ⟨0, 0, 0⟩,
        emissive := ⟨0, 0, 0⟩, shininess := 0,
        textures :=
          { diffuse := some ⟨⟨true⟩⟩, ambient := some ⟨⟨true⟩⟩,
            specular := some ⟨⟨true⟩⟩, emissive := some ⟨⟨true⟩⟩ } } := by
  rfl

/-- C7 (amended): texture loading never fails.  Whenever the raw material
reports at least one texture for a slot, `get_texture` returns a present
texture, and when the resolved path fails to decode, that texture wraps a
null image rather than any error being raised. -/
theorem get_texture_never_fails (env : Bgl.ImageEnv)
    (material : Bgl.AiMaterial) (ttype : Bgl.AiTextureType)
    (base_path : String)
    (hcount : 1 ≤ (material.textures ttype).length)
    (hfail : env.decodes (Bgl.get_path material ttype base_path) = false) :
    Bgl.get_texture env material ttype base_path = some ⟨⟨true⟩⟩ := by
  simp [Bgl.get_texture, hcount, Bgl.LoadTexture, Bgl.loadQImage, hfail]

/-- Witness for C7: one diffuse texture whose path does not decode still
yields a present texture wrapping a null image. -/
theorem get_texture_never_fails_witness :
    Bgl.get_texture ⟨fun _ => false⟩ ⟨[], fun _ => ["albedo.png"]⟩
      .diffuse "scene_dir" = some ⟨⟨true⟩⟩ :=
  get_texture_never_fails ⟨fun _ => false⟩ ⟨[], fun _ => ["albedo.png"]⟩
    .diffuse "scene_dir" (by decide) rfl

/-- C8: an absent named color property reads as `(0,0,0)` (the
zero-initialized `aiColor3D` is left untouched), and a texture slot for
which the raw material reports zero textures yields an absent texture
reference; neither is an error — both functions return normally. -/
theorem material_absent_defaults (env : Bgl.ImageEnv)
    (material : Bgl.AiMaterial) (pKey : String)
    (ttype : Bgl.AiTextureType) (base_path : String)
    (hc : material.colors.lookup pKey = none)
    (ht : material.textures ttype = []) :
    Bgl.get_color material pKey = ⟨0, 0, 0⟩ ∧
      Bgl.get_texture env material ttype base_path = none := by
  constructor
  · simp [Bgl.get_color, hc, Bgl.Vec3.zero]
  · simp [Bgl.get_texture, ht]

/-- Witness for C8: a material carrying only an ambient color and no
textures reads diffuse `(0,0,0)` and an absent diffuse texture. -/
theorem material_absent_defaults_witness :
    Bgl.get_color ⟨[("$clr.ambient", ⟨1, 1, 1⟩)], fun _ => []⟩
        "$clr.diffuse" = ⟨0, 0, 0⟩ ∧
      Bgl.get_texture ⟨fun _ => true⟩
        ⟨[("$clr.ambient", ⟨1, 1, 1⟩)], fun _ => []⟩ .diffuse "dir" = none :=
  material_absent_defaults ⟨fun _ => true⟩
    ⟨[("$clr.ambient", ⟨1, 1, 1⟩)], fun _ => []⟩ "$clr.diffuse" .diffuse
    "dir" (by rfl) rfl

/-- C10: a raw mesh whose `mMaterialIndex` is 0 fails `has_material`, so
`load_meshes` leaves that built mesh's material reference unset; as a
consequence no built mesh ever references the material at index 0. -/
theorem load_meshes_material_zero (scene : List Bgl.AiMesh) (i : Nat)
    (hi : i < scene.length) :
    ((scene.getD i Bgl.AiMesh.empty).mMaterialIndex = 0 →
      (Bgl.load_meshes_materialIndex scene).getD i (some 0) = none) ∧
    ∀ k, (Bgl.load_meshes_materialIndex scene).getD i none = some k →
      k ≠ 0 := by
  have hval : (Bgl.load_meshes_materialIndex scene)[i]? =
      some (if Bgl.has_material (scene.getD i Bgl.AiMesh.empty) then
        some (scene.getD i Bgl.AiMesh.empty).mMaterialIndex else none) := by
    rw [Bgl.load_meshes_materialIndex, List.getElem?_map,
      List.getElem?_eq_getElem hi, List.getD_eq_getElem _ _ hi]
    rfl
  have hgetD : ∀ d : Option Nat,
      (Bgl.load_meshes_materialIndex scene).getD i d =
        if Bgl.has_material (scene.getD i Bgl.AiMesh.empty) then
          some (scene.getD i Bgl.AiMesh.empty).mMaterialIndex else none := by
    intro d
    rw [List.getD_eq_getElem?_getD, hval]
    rfl
  constructor
  · intro hz
    have hcond : Bgl.has_material (scene.getD i Bgl.AiMesh.empty) = false := by
      rw [Bgl.has_material, hz]
      rfl
    rw [hgetD (some 0), hcond]
    simp
  · intro k hk
    rw [hgetD none] at hk
    by_cases hm : Bgl.has_material (scene.getD i Bgl.AiMesh.empty) = true
    · rw [if_pos hm] at hk
      have hne : (scene.getD i Bgl.AiMesh.empty).mMaterialIndex ≠ 0 := by
        simpa [Bgl.has_material] using hm
      exact Option.some.inj hk ▸ hne
    · rw [if_neg hm] at hk
      exact absurd hk (by simp)

/-- Witness for C10: in a scene whose first mesh has material index 0 and
second has index 2, the first built mesh has no material reference and
the second's reference 2 is nonzero. -/
theorem load_meshes_material_zero_witness :
    (Bgl.load_meshes_materialIndex
        [Bgl.AiMesh.empty, ⟨[], [], none, 0, [], 2⟩]).getD 0 (some 0) =
      none ∧ (2 : Nat) ≠ 0 :=
  ⟨(load_meshes_material_zero
      [Bgl.AiMesh.empty, ⟨[], [], none, 0, [], 2⟩] 0 (by decide)).1 rfl,
   (load_meshes_material_zero
      [Bgl.AiMesh.empty, ⟨[], [], none, 0, [], 2⟩] 1 (by decide)).2 2 rfl⟩
